import Mathlib

/-!
Verification of the HopeTurtle OLED status display (src/oled_status.py).

The Python module is shallowly embedded: the GPS fix-log scan
(_iter_recent_gps_rows / _latest_row), the numeric helpers (_safe_float,
_km_distance), the two GPS display handlers (_show_distance, _show_brief),
and the command dispatch of main are translated into Lean definitions.
Python floats are modelled by real numbers; values parsed from CSV text are
modelled by rationals.  A Python exception escaping a function is modelled
with Except: an Except.error value is a raised exception.  The bounded
acquisition retry loop, whose source is not part of the repository, is
modelled from the spec where marked.
-/

/-- A parsed CSV row as produced by csv.DictReader: an association list from
column name to cell value.  A stored value of none models Python None, which
DictReader uses as restval to fill in the columns that a short data row is
missing.  Keys are the header names and are assumed distinct, so lookup takes
the first match. -/
abbrev Row := List (String × Option String)

/-- Python dict.get key default: the stored value when the key is present
(that value itself may be none, i.e. Python None), the default otherwise. -/
def dictGet (r : Row) (k : String) (dflt : Option String) : Option String :=
  match r.find? (fun p => p.1 == k) with
  | some p => p.2
  | none => dflt

/-- One candidate *_gps.csv file of the data directory: its modification time
and its content as parsed by list(csv.DictReader(f)).  A content of none
models a file whose open or csv parse raised, which the except branch of
_iter_recent_gps_rows skips. -/
structure GpsFile where
  mtime : Nat
  content : Option (List Row)
deriving DecidableEq

/-- Insertion into an mtime-descending list: x goes after every file whose
mtime is at least x.mtime, matching the stability of Python sorted with
reverse=True (glob order is preserved among equal mtimes). -/
def insertByMtime (x : GpsFile) : List GpsFile → List GpsFile
  | [] => [x]
  | y :: ys => if x.mtime ≤ y.mtime then y :: insertByMtime x ys else x :: y :: ys

/-- sorted(files, key=os.path.getmtime, reverse=True). -/
def sortByMtimeDesc (l : List GpsFile) : List GpsFile :=
  l.foldl (fun acc x => insertByMtime x acc) []

/-- The rows one file contributes to the scan, newest first: reversed(rows)
with the truthiness filter (if row).  A file that failed to open or parse
contributes nothing and the scan continues with the next file. -/
def fileRows (f : GpsFile) : List Row :=
  match f.content with
  | none => []
  | some rows => rows.reverse.filter (fun r => !r.isEmpty)

/-- _iter_recent_gps_rows: every row of every candidate file, files in
modification-time descending order, rows within a file in reverse order. -/
def iterRecentGpsRows (files : List GpsFile) : List Row :=
  (sortByMtimeDesc files).flatMap fileRows

/-- str.lower() of Python, ASCII case; applied to a value that may be Python
None, on which .lower() raises AttributeError. -/
def pyLower : Option String → Except String String
  | none => Except.error "AttributeError"
  | some s => Except.ok ⟨s.data.map Char.toLower⟩

/-- str.upper() of Python, ASCII case; None.upper() raises AttributeError. -/
def pyUpper : Option String → Except String String
  | none => Except.error "AttributeError"
  | some s => Except.ok ⟨s.data.map Char.toUpper⟩

/-- The loop of _latest_row specialised to a concrete status filter: return
the first scanned row with row.get("status", "").lower() == status. -/
def findStatusRow (status : String) : List Row → Except String (Option Row)
  | [] => Except.ok none
  | r :: rs =>
    match pyLower (dictGet r "status" (some "")) with
    | Except.error e => Except.error e
    | Except.ok s => if s = status then Except.ok (some r) else findStatusRow status rs

/-- _latest_row: with status=None the first scanned row is returned
unconditionally (the disjunction short-circuits before .lower() is reached);
with a status filter, the first row whose lowered status equals it. -/
def latestRow (status : Option String) (files : List GpsFile) : Except String (Option Row) :=
  match status with
  | none => Except.ok ((iterRecentGpsRows files).head?)
  | some s => findStatusRow s (iterRecentGpsRows files)

/-- Numeric value of a digit string. -/
def natOfDigits (l : List Char) : Nat :=
  l.foldl (fun n c => 10 * n + (c.toNat - 48)) 0

/-- Both-ends whitespace strip, as Python float() applies to its argument. -/
def trimChars (l : List Char) : List Char :=
  ((l.dropWhile Char.isWhitespace).reverse.dropWhile Char.isWhitespace).reverse

/-- Python float() on a string, modelled for finite decimal literals:
optional surrounding whitespace, optional sign, digits with an optional
fractional part, and an optional decimal exponent.  The inf/nan spellings and
digit-group underscores that float() also accepts are not represented; no
claim depends on them. -/
def pyFloat (s : String) : Option ℚ :=
  let l := trimChars s.data
  let signAndRest : ℚ × List Char :=
    match l with
    | '+' :: r => (1, r)
    | '-' :: r => (-1, r)
    | _ => (1, l)
  let sgn := signAndRest.1
  let l1 := signAndRest.2
  let ip := l1.takeWhile Char.isDigit
  let rest := l1.dropWhile Char.isDigit
  let mant : Option (ℚ × List Char) :=
    match rest with
    | '.' :: r2 =>
      let fp := r2.takeWhile Char.isDigit
      let r3 := r2.dropWhile Char.isDigit
      if ip.isEmpty && fp.isEmpty then none
      else some ((natOfDigits ip : ℚ) + (natOfDigits fp : ℚ) / (10 : ℚ) ^ fp.length, r3)
    | _ => if ip.isEmpty then none else some ((natOfDigits ip : ℚ), rest)
  match mant with
  | none => none
  | some (m, r) =>
    match r with
    | [] => some (sgn * m)
    | c :: r2 =>
      if c = 'e' ∨ c = 'E' then
        let expSignAndRest : Bool × List Char :=
          match r2 with
          | '+' :: t => (true, t)
          | '-' :: t => (false, t)
          | _ => (true, r2)
        let ds := expSignAndRest.2.takeWhile Char.isDigit
        let r4 := expSignAndRest.2.dropWhile Char.isDigit
        if ds.isEmpty || !r4.isEmpty then none
        else if expSignAndRest.1 then some (sgn * m * (10 : ℚ) ^ natOfDigits ds)
        else some (sgn * m / (10 : ℚ) ^ natOfDigits ds)
      else none

/-- _safe_float: float(val) with every exception mapped to None; float(None)
raises TypeError, so an absent value yields none. -/
def safeFloat : Option String → Option ℚ
  | none => none
  | some s => pyFloat s

/-- math.radians: degrees to radians. -/
noncomputable def radians (x : ℝ) : ℝ := x * Real.pi / 180

/-- The haversine intermediate a of _km_distance. -/
noncomputable def havA (lat1 lon1 lat2 lon2 : ℝ) : ℝ :=
  Real.sin ((radians lat2 - radians lat1) / 2) ^ 2 +
    Real.cos (radians lat1) * Real.cos (radians lat2) *
      Real.sin ((radians lon2 - radians lon1) / 2) ^ 2

/-- The argument min(1.0, sqrt(a)) that _km_distance passes to asin. -/
noncomputable def asinArg (lat1 lon1 lat2 lon2 : ℝ) : ℝ :=
  min 1 (Real.sqrt (havA lat1 lon1 lat2 lon2))

/-- The numeric core of _km_distance: c = 2 * asin(min(1.0, sqrt(a))) scaled
by earth_radius_km = 6371.0. -/
noncomputable def kmDistanceReal (lat1 lon1 lat2 lon2 : ℝ) : ℝ :=
  6371.0 * (2 * Real.arcsin (asinArg lat1 lon1 lat2 lon2))

/-- _km_distance: None as soon as any argument is None, otherwise the
haversine distance of the two points. -/
noncomputable def kmDistance (a b c d : Option ℝ) : Option ℝ :=
  match a, b, c, d with
  | some lat1, some lon1, some lat2, some lon2 => some (kmDistanceReal lat1 lon1 lat2 lon2)
  | _, _, _, _ => none

/-- The Distance Calculator exactly as the spec words it in its section 4.4:
the standard haversine formula over decimal-degree inputs with a
parameterised Earth radius, the square root clamped before asin.  Written
from the spec text, to be compared with the code's kmDistanceReal. -/
noncomputable def specHaversineKm (R lat1 lon1 lat2 lon2 : ℝ) : ℝ :=
  R * (2 * Real.arcsin (min 1 (Real.sqrt (
    Real.sin ((lat2 * Real.pi / 180 - lat1 * Real.pi / 180) / 2) ^ 2 +
      Real.cos (lat1 * Real.pi / 180) * Real.cos (lat2 * Real.pi / 180) *
        Real.sin ((lon2 * Real.pi / 180 - lon1 * Real.pi / 180) / 2) ^ 2))))

/-- Default HT_REF_LAT of the config block. -/
def REF_LAT : ℚ := 31.283

/-- Default HT_REF_LON of the config block. -/
def REF_LON : ℚ := 34.234

/-- Python x or default for an optional string: None and the empty string are
falsy and give the default. -/
def pyOr (v : Option String) (d : String) : String :=
  match v with
  | none => d
  | some s => if s.data.isEmpty then d else s

/-- row = _latest_row(status="fix") or _latest_row(): every scanned row is a
non-empty dict and hence truthy, so the fallback lookup fires exactly when
the fix-filtered lookup returns None. -/
def selectRow (files : List GpsFile) : Except String (Option Row) :=
  match latestRow (some "fix") files with
  | Except.error e => Except.error e
  | Except.ok (some r) => Except.ok (some r)
  | Except.ok none => latestRow none files

/-- The message _show_distance selects, with text formatting abstracted and
the data each branch renders retained. -/
inductive DistanceRender
  | noData
  | entryNoKm (statusUpper : String) (ts : String)
  | toMawasi (km : ℝ) (lat lon : Option ℚ) (ts : String)

/-- The body of _show_distance after a row has been selected: parse the
coordinates, compute the distance to the reference point, and branch on
whether the distance is None; the distance-less branch evaluates
status.upper(), which raises when the stored status value is Python None. -/
noncomputable def distanceOfRow (row : Row) : Except String DistanceRender :=
  match kmDistance ((safeFloat (dictGet row "lat" none)).map (fun q => (q : ℝ)))
      ((safeFloat (dictGet row "lon" none)).map (fun q => (q : ℝ)))
      (some ((REF_LAT : ℚ) : ℝ)) (some ((REF_LON : ℚ) : ℝ)) with
  | none =>
    match pyUpper (dictGet row "status" (some "?")) with
    | Except.error e => Except.error e
    | Except.ok su =>
      Except.ok (DistanceRender.entryNoKm su (pyOr (dictGet row "timestamp_utc" none) "(no time)"))
  | some km =>
    Except.ok (DistanceRender.toMawasi km (safeFloat (dictGet row "lat" none))
      (safeFloat (dictGet row "lon" none)) (pyOr (dictGet row "timestamp_utc" none) "(no time)"))

/-- _show_distance. -/
noncomputable def showDistanceRender (files : List GpsFile) : Except String DistanceRender :=
  match selectRow files with
  | Except.error e => Except.error e
  | Except.ok none => Except.ok DistanceRender.noData
  | Except.ok (some row) => distanceOfRow row

/-- The message _show_brief selects, with text formatting abstracted and the
data each branch renders retained. -/
inductive BriefRender
  | noLog
  | fixKm (ts : String) (latRaw lonRaw : Option String) (km : ℝ) (sats hdop : String)
  | fixNoKm (ts : String) (latRaw lonRaw : Option String) (sats hdop : String)
  | lastStatus (statusUpper : String) (ts : String) (sats hdop : String)

/-- The body of _show_brief after a row has been selected: status is lowered
up front (raising on a stored Python None), then the three branches of the
if status == "fix" and km is not None chain. -/
noncomputable def briefOfRow (row : Row) : Except String BriefRender :=
  match pyLower (dictGet row "status" (some "?")) with
  | Except.error e => Except.error e
  | Except.ok status =>
    if status = "fix" then
      match kmDistance ((safeFloat (dictGet row "lat" none)).map (fun q => (q : ℝ)))
          ((safeFloat (dictGet row "lon" none)).map (fun q => (q : ℝ)))
          (some ((REF_LAT : ℚ) : ℝ)) (some ((REF_LON : ℚ) : ℝ)) with
      | some km =>
        Except.ok (BriefRender.fixKm (pyOr (dictGet row "timestamp_utc" none) "(no time)")
          (dictGet row "lat" none) (dictGet row "lon" none) km
          (pyOr (dictGet row "sats" none) "?") (pyOr (dictGet row "hdop" none) "?"))
      | none =>
        Except.ok (BriefRender.fixNoKm (pyOr (dictGet row "timestamp_utc" none) "(no time)")
          (dictGet row "lat" none) (dictGet row "lon" none)
          (pyOr (dictGet row "sats" none) "?") (pyOr (dictGet row "hdop" none) "?"))
    else
      Except.ok (BriefRender.lastStatus ⟨status.data.map Char.toUpper⟩
        (pyOr (dictGet row "timestamp_utc" none) "(no time)")
        (pyOr (dictGet row "sats" none) "?") (pyOr (dictGet row "hdop" none) "?"))

/-- _show_brief. -/
noncomputable def showBriefRender (files : List GpsFile) : Except String BriefRender :=
  match selectRow files with
  | Except.error e => Except.error e
  | Except.ok none => Except.ok BriefRender.noLog
  | Except.ok (some row) => briefOfRow row

/-- The command dispatch of main on sys.argv. -/
inductive Command
  | usage
  | swim
  | custom (lines : List String)
  | bootWaking
  | bootAlive
  | distance
  | brief
  | notifyInstall
  | notifyUpdate
  | unknown (cmd : String)
deriving DecidableEq

/-- cmd = sys.argv[1].lower() followed by the if/elif chain of main; fewer
than two arguments take the usage path. -/
def dispatch (argv : List String) : Command :=
  match argv with
  | [] => Command.usage
  | [_] => Command.usage
  | _ :: a :: rest =>
    let cmd : String := ⟨a.data.map Char.toLower⟩
    if cmd = "swim" then Command.swim
    else if cmd = "custom" then Command.custom rest
    else if cmd = "boot-waking" then Command.bootWaking
    else if cmd = "boot-alive" then Command.bootAlive
    else if cmd = "distance" then Command.distance
    else if cmd = "brief" then Command.brief
    else if cmd = "notify-install" then Command.notifyInstall
    else if cmd = "notify-update" then Command.notifyUpdate
    else Command.unknown cmd

/-- The recognised display commands of main. -/
def knownCommands : List String :=
  ["swim", "custom", "boot-waking", "boot-alive", "distance", "brief",
   "notify-install", "notify-update"]

/-- The text lines main renders for an unrecognised command. -/
def unknownCmdLines (cmd : String) : List String := ["Unknown cmd:", cmd]

/-- The return value of main after its try/except: 0 whether the handler
body completed or raised (the except branch prints the traceback and falls
through to return 0). -/
def exitOf : Except String Unit → Nat
  | Except.ok _ => 0
  | Except.error _ => 0

/-- Whether the dispatched handler body raises, in the static model: only
the GPS-backed handlers can raise (through _latest_row and the row fields);
every other handler completes or blocks without raising. -/
noncomputable def handlerOutcome (c : Command) (files : List GpsFile) : Except String Unit :=
  match c with
  | Command.distance => (showDistanceRender files).map (fun _ => ())
  | Command.brief => (showBriefRender files).map (fun _ => ())
  | _ => Except.ok ()

/-- main: with fewer than two arguments it prints the usage line and returns
0; otherwise the dispatched handler runs inside try/except and 0 is
returned on both the normal and the exception path. -/
noncomputable def mainExit (argv : List String) (files : List GpsFile) : Nat :=
  match argv with
  | [] => 0
  | [_] => 0
  | _ => exitOf (handlerOutcome (dispatch argv) files)

/-- Modelled from the spec: the bounded acquisition retry loop of spec
section 4.2 step 3 (the Acquisition Orchestrator source is not under src/).
fixFound k tells whether the fix-log query succeeds on attempt k; the result
is (attempts made, sleeps taken, fix found).  The sampler invocation is
fire-and-forget and carries no data.  A fixed inter-attempt delay is slept
between attempts whenever no fix is found; a successful attempt ends the
loop at once, with no further sleep. -/
def retryLoopGo (fixFound : Nat → Bool) (k : Nat) : Nat → Nat × Nat × Bool
  | 0 => (0, 0, false)
  | n + 1 =>
    if fixFound k then (1, 0, true)
    else
      match n with
      | 0 => (1, 0, false)
      | m + 1 =>
        let r := retryLoopGo fixFound (k + 1) (m + 1)
        (r.1 + 1, r.2.1 + 1, r.2.2)

/-- Modelled from the spec: the retry loop entered with budget n, attempts
numbered from 0. -/
def retryLoop (n : Nat) (fixFound : Nat → Bool) : Nat × Nat × Bool :=
  retryLoopGo fixFound 0 n

/-- Modelled from the spec: default attempt bound of the retry loop. -/
def MAX_ATTEMPTS : Nat := 15

/-- Modelled from the spec: default inter-attempt delay, in seconds. -/
def RETRY_DELAY_S : Nat := 3

lemma insertByMtime_perm (x : GpsFile) (l : List GpsFile) :
    List.Perm (insertByMtime x l) (x :: l) := by
  induction l with
  | nil => exact List.Perm.refl _
  | cons y ys ih =>
    unfold insertByMtime
    split
    · exact (ih.cons y).trans (List.Perm.swap x y ys)
    · exact List.Perm.refl _

lemma foldl_insertByMtime_perm (l : List GpsFile) :
    ∀ acc, List.Perm (l.foldl (fun a x => insertByMtime x a) acc) (acc ++ l) := by
  induction l with
  | nil => intro acc; simp
  | cons x xs ih =>
    intro acc
    have h1 := ih (insertByMtime x acc)
    have h2 : List.Perm (insertByMtime x acc ++ xs) ((x :: acc) ++ xs) :=
      (insertByMtime_perm x acc).append_right xs
    have h3 : List.Perm ((x :: acc) ++ xs) (acc ++ x :: xs) := List.perm_middle.symm
    simpa using (h1.trans h2).trans h3

lemma sortByMtimeDesc_perm (l : List GpsFile) : List.Perm (sortByMtimeDesc l) l := by
  simpa using foldl_insertByMtime_perm l []

lemma insertByMtime_sorted (x : GpsFile) (l : List GpsFile)
    (h : l.Pairwise (fun a b => b.mtime ≤ a.mtime)) :
    (insertByMtime x l).Pairwise (fun a b => b.mtime ≤ a.mtime) := by
  induction l with
  | nil => simp [insertByMtime]
  | cons y ys ih =>
    rcases List.pairwise_cons.mp h with ⟨hy, hys⟩
    unfold insertByMtime
    split_ifs with h1
    · refine List.pairwise_cons.mpr ⟨?_, ih hys⟩
      intro z hz
      rcases List.mem_cons.mp ((insertByMtime_perm x ys).mem_iff.mp hz) with rfl | hzys
      · exact h1
      · exact hy z hzys
    · have hxy : y.mtime ≤ x.mtime := Nat.le_of_lt (Nat.lt_of_not_le h1)
      refine List.pairwise_cons.mpr ⟨?_, h⟩
      intro z hz
      rcases List.mem_cons.mp hz with rfl | hzys
      · exact hxy
      · exact le_trans (hy z hzys) hxy

lemma foldl_insertByMtime_sorted (l : List GpsFile) :
    ∀ acc, acc.Pairwise (fun a b => b.mtime ≤ a.mtime) →
      (l.foldl (fun a x => insertByMtime x a) acc).Pairwise (fun a b => b.mtime ≤ a.mtime) := by
  induction l with
  | nil => intro acc h; simpa using h
  | cons x xs ih => intro acc h; exact ih _ (insertByMtime_sorted x acc h)

lemma sortByMtimeDesc_sorted (l : List GpsFile) :
    (sortByMtimeDesc l).Pairwise (fun a b => b.mtime ≤ a.mtime) :=
  foldl_insertByMtime_sorted l [] (by simp)

/-- The status check of _latest_row as a Boolean row predicate: false both
when the lowered status differs and when the stored value is Python None. -/
def rowStatusIs (r : Row) (s : String) : Bool :=
  match dictGet r "status" (some "") with
  | some v => (⟨v.data.map Char.toLower⟩ : String) == s
  | none => false

lemma findStatusRow_eq_find (s : String) (rows : List Row)
    (h : ∀ r ∈ rows, (dictGet r "status" (some "")).isSome) :
    findStatusRow s rows = Except.ok (rows.find? (fun r => rowStatusIs r s)) := by
  induction rows with
  | nil => rfl
  | cons r rs ih =>
    have hr := h r (List.mem_cons_self r rs)
    obtain ⟨v, hv⟩ := Option.isSome_iff_exists.mp hr
    by_cases hc : (⟨v.data.map Char.toLower⟩ : String) = s
    · simp [findStatusRow, pyLower, hv, List.find?, rowStatusIs, hc]
    · have hbeq : ((⟨v.data.map Char.toLower⟩ : String) == s) = false :=
        beq_eq_false_iff_ne.mpr hc
      have hstep : List.find? (fun x => rowStatusIs x s) (r :: rs)
          = List.find? (fun x => rowStatusIs x s) rs := by
        simp [List.find?, rowStatusIs, hv, hbeq]
      rw [hstep]
      simp only [findStatusRow, pyLower, hv]
      rw [if_neg hc]
      exact ih (fun x hx => h x (List.mem_cons_of_mem _ hx))

lemma findStatusRow_ok_none (s : String) (rows : List Row)
    (h : findStatusRow s rows = Except.ok none) :
    ∀ r ∈ rows, (dictGet r "status" (some "")).isSome ∧ rowStatusIs r s = false := by
  induction rows with
  | nil => intro r hr; simp at hr
  | cons r rs ih =>
    unfold findStatusRow at h
    cases hv : dictGet r "status" (some "") with
    | none => rw [hv] at h; simp [pyLower] at h
    | some v =>
      rw [hv] at h
      simp only [pyLower] at h
      by_cases hc : (⟨v.data.map Char.toLower⟩ : String) = s
      · rw [if_pos hc] at h; simp at h
      · rw [if_neg hc] at h
        intro x hx
        rcases List.mem_cons.mp hx with rfl | hxs
        · exact ⟨by simp [hv], by simp [rowStatusIs, hv, hc]⟩
        · exact ih h x hxs

lemma findStatusRow_ok_some (s : String) (rows : List Row) (r : Row)
    (h : findStatusRow s rows = Except.ok (some r)) :
    (dictGet r "status" (some "")).isSome := by
  induction rows with
  | nil => simp [findStatusRow] at h
  | cons r0 rs ih =>
    unfold findStatusRow at h
    cases hv : dictGet r0 "status" (some "") with
    | none => rw [hv] at h; simp [pyLower] at h
    | some v =>
      rw [hv] at h
      simp only [pyLower] at h
      by_cases hc : (⟨v.data.map Char.toLower⟩ : String) = s
      · rw [if_pos hc] at h
        have : r0 = r := by simpa using h
        simp [← this, hv]
      · rw [if_neg hc] at h
        exact ih h

lemma dictGet_isSome_default (r : Row) (k : String) (d d' : String)
    (h : (dictGet r k (some d)).isSome) : (dictGet r k (some d')).isSome := by
  unfold dictGet at h ⊢
  cases hf : r.find? (fun p => p.1 == k) with
  | none => simp
  | some p => rw [hf] at h; simpa using h

lemma havA_self (lat lon : ℝ) : havA lat lon lat lon = 0 := by
  simp [havA]

lemma kmDistanceReal_self (lat lon : ℝ) : kmDistanceReal lat lon lat lon = 0 := by
  unfold kmDistanceReal asinArg
  rw [havA_self, Real.sqrt_zero, min_eq_right (by norm_num : (0:ℝ) ≤ 1), Real.arcsin_zero]
  ring

lemma havA_symm (lat1 lon1 lat2 lon2 : ℝ) :
    havA lat1 lon1 lat2 lon2 = havA lat2 lon2 lat1 lon1 := by
  have hsin : ∀ u v : ℝ, Real.sin ((u - v) / 2) ^ 2 = Real.sin ((v - u) / 2) ^ 2 := by
    intro u v
    rw [show (u - v) / 2 = -((v - u) / 2) by ring, Real.sin_neg]
    ring
  unfold havA
  rw [hsin (radians lat2) (radians lat1), hsin (radians lon2) (radians lon1)]
  ring

lemma kmDistanceReal_symm (lat1 lon1 lat2 lon2 : ℝ) :
    kmDistanceReal lat1 lon1 lat2 lon2 = kmDistanceReal lat2 lon2 lat1 lon1 := by
  unfold kmDistanceReal asinArg
  rw [havA_symm]

/-- C3: the distance of a point to itself is zero, and _km_distance is
symmetric in its two points (stated over every optional-argument
combination; absent arguments give None on both sides). -/
theorem c3_distance_identity_symmetry :
    (∀ lat lon : ℝ, kmDistance (some lat) (some lon) (some lat) (some lon) = some 0) ∧
      (∀ a b c d : Option ℝ, kmDistance a b c d = kmDistance c d a b) := by
  constructor
  · intro lat lon
    simp [kmDistance, kmDistanceReal_self]
  · intro a b c d
    cases a <;> cases b <;> cases c <;> cases d <;>
      first
        | rfl
        | exact congrArg some (kmDistanceReal_symm _ _ _ _)

/-- C5: the argument min(1.0, sqrt(a)) that _km_distance passes to asin lies
in the interval from -1 to 1 for every real input, so the inverse-sine
domain-error branch is unreachable. -/
theorem c5_asin_arg_clamped (lat1 lon1 lat2 lon2 : ℝ) :
    -1 ≤ asinArg lat1 lon1 lat2 lon2 ∧ asinArg lat1 lon1 lat2 lon2 ≤ 1 := by
  unfold asinArg
  constructor
  · have h0 : (0:ℝ) ≤ min 1 (Real.sqrt (havA lat1 lon1 lat2 lon2)) :=
      le_min (by norm_num) (Real.sqrt_nonneg _)
    linarith
  · exact min_le_left _ _

lemma radians_zero : radians 0 = 0 := by simp [radians]

lemma radians_180 : radians 180 = Real.pi := by
  unfold radians
  rw [mul_comm, mul_div_assoc]
  norm_num

lemma havA_eq_one : havA 0 0 0 180 = 1 := by
  unfold havA
  rw [radians_zero, radians_180]
  simp [Real.sin_pi_div_two]

lemma kmDistanceReal_antipodal : kmDistanceReal 0 0 0 180 = 6371.0 * Real.pi := by
  unfold kmDistanceReal asinArg
  rw [havA_eq_one, Real.sqrt_one, min_self, Real.arcsin_one]
  ring

lemma specHaversineKm_antipodal (R : ℝ) : specHaversineKm R 0 0 0 180 = R * Real.pi := by
  unfold specHaversineKm
  have h180 : (180:ℝ) * Real.pi / 180 - 0 * Real.pi / 180 = Real.pi := by
    rw [mul_comm, mul_div_assoc]
    norm_num
  rw [h180]
  simp [Real.sin_pi_div_two, Real.arcsin_one]
  exact Or.inl (by ring)

/-- C4 counterexample: at the points (0, 0) and (0, 180) the code's distance
differs from the spec's haversine formula with Earth radius 6371.0088 km,
because the code uses earth_radius_km = 6371.0. -/
theorem c4_counterexample :
    kmDistanceReal 0 0 0 180 ≠ specHaversineKm 6371.0088 0 0 0 180 := by
  rw [kmDistanceReal_antipodal, specHaversineKm_antipodal]
  intro h
  have h2 := mul_right_cancel₀ Real.pi_ne_zero h
  norm_num at h2

/-- C4 (amended): the distance calculator computes the standard haversine
formula, in decimal degrees and kilometres, with Earth radius 6371.0 km. -/
theorem c4_radius_amended (lat1 lon1 lat2 lon2 : ℝ) :
    kmDistanceReal lat1 lon1 lat2 lon2 = specHaversineKm 6371.0 lat1 lon1 lat2 lon2 := by
  unfold kmDistanceReal specHaversineKm asinArg havA radians
  norm_num

/-- A fix-status row whose coordinates both parse; the earlier (older) row of
the C1 scenario. -/
def rowGoodCoords : Row :=
  [("status", some "fix"), ("lat", some "31.28"), ("lon", some "34.23")]

/-- A fix-status row whose lat does not parse as a number; the later (newer)
row of the C1 scenario. -/
def rowBadCoords : Row :=
  [("status", some "fix"), ("lat", some "abc"), ("lon", some "1.0")]

/-- One log file holding the good row then the bad row, so the reverse scan
meets the bad row first. -/
def mixedFixFile : GpsFile := ⟨5, some [rowGoodCoords, rowBadCoords]⟩

/-- C1 counterexample: the fix lookup returns the newest fix-status row even
though its lat does not parse, while an older row satisfying the claim's
full predicate (fix status and parseable lat and lon) is present, so the
lookup does not filter on parseable coordinates as claimed. -/
theorem c1_counterexample :
    latestRow (some "fix") [mixedFixFile] = Except.ok (some rowBadCoords) ∧
      safeFloat (dictGet rowBadCoords "lat" none) = none ∧
      rowStatusIs rowGoodCoords "fix" = true ∧
      (safeFloat (dictGet rowGoodCoords "lat" none)).isSome = true ∧
      (safeFloat (dictGet rowGoodCoords "lon" none)).isSome = true :=
  ⟨rfl, rfl, rfl, rfl, rfl⟩

/-- C1 (amended): the fix lookup scans candidate files in modification-time
descending order and rows within a file in reverse order, and returns the
first scanned row whose status lowercases to "fix" regardless of whether its
coordinates parse, or None when no such row exists; this holds whenever
every scanned row carries a status string (a missing status value instead
raises, see C2). -/
theorem c1_latest_fix_scan (files : List GpsFile) :
    (sortByMtimeDesc files).Pairwise (fun a b => b.mtime ≤ a.mtime) ∧
      List.Perm (sortByMtimeDesc files) files ∧
      ((∀ r ∈ iterRecentGpsRows files, (dictGet r "status" (some "")).isSome) →
        latestRow (some "fix") files =
          Except.ok ((iterRecentGpsRows files).find? (fun r => rowStatusIs r "fix"))) := by
  refine ⟨sortByMtimeDesc_sorted files, sortByMtimeDesc_perm files, ?_⟩
  intro h
  exact findStatusRow_eq_find "fix" (iterRecentGpsRows files) h

/-- C1 witness: the amended scan theorem applied to the concrete one-file
log set of the counterexample. -/
theorem c1_witness :
    (∀ r ∈ iterRecentGpsRows [mixedFixFile], (dictGet r "status" (some "")).isSome) ∧
      latestRow (some "fix") [mixedFixFile] =
        Except.ok ((iterRecentGpsRows [mixedFixFile]).find? (fun r => rowStatusIs r "fix")) :=
  ⟨by decide, (c1_latest_fix_scan [mixedFixFile]).2.2 (by decide)⟩

/-- The row of the C2 failing input: DictReader read a data row shorter than
the header timestamp_utc,lat,lon,status,sats and filled the missing cells,
status among them, with Python None. -/
def shortRow : Row :=
  [("timestamp_utc", some "2024-01-01T00:00:00Z"), ("lat", some "31.0"),
   ("lon", none), ("status", none), ("sats", none)]

/-- The single log file of the C2 failing input. -/
def shortRowFile : GpsFile := ⟨10, some [shortRow]⟩

/-- C2: contrary to the claim that the scan never raises and skips malformed
rows, a row with a missing status field makes _latest_row evaluate
None.lower(), and the AttributeError escapes the scan instead of degrading
to a None result. -/
theorem c2_missing_status_raises :
    latestRow (some "fix") [shortRowFile] = Except.error "AttributeError" := rfl

/-- C6: every command-line argument whose lowering is not one of the
recognised display commands dispatches to the unknown-command branch, which
renders a fallback message naming the (lowered) command. -/
theorem c6_unknown_command (prog a : String) (rest : List String)
    (h : (⟨a.data.map Char.toLower⟩ : String) ∉ knownCommands) :
    dispatch (prog :: a :: rest) = Command.unknown ⟨a.data.map Char.toLower⟩ ∧
      unknownCmdLines ⟨a.data.map Char.toLower⟩ =
        ["Unknown cmd:", (⟨a.data.map Char.toLower⟩ : String)] := by
  refine ⟨?_, rfl⟩
  obtain ⟨h1, h2, h3, h4, h5, h6, h7, h8⟩ :
      ¬(⟨a.data.map Char.toLower⟩ : String) = "swim" ∧
        ¬(⟨a.data.map Char.toLower⟩ : String) = "custom" ∧
        ¬(⟨a.data.map Char.toLower⟩ : String) = "boot-waking" ∧
        ¬(⟨a.data.map Char.toLower⟩ : String) = "boot-alive" ∧
        ¬(⟨a.data.map Char.toLower⟩ : String) = "distance" ∧
        ¬(⟨a.data.map Char.toLower⟩ : String) = "brief" ∧
        ¬(⟨a.data.map Char.toLower⟩ : String) = "notify-install" ∧
        ¬(⟨a.data.map Char.toLower⟩ : String) = "notify-update" := by
    simpa [knownCommands, not_or] using h
  simp [dispatch, h1, h2, h3, h4, h5, h6, h7, h8]

/-- C6 witness: the unknown-command theorem at the concrete argument
"Frobnicate". -/
theorem c6_witness :
    dispatch ["oled_status.py", "Frobnicate"] =
        Command.unknown ⟨"Frobnicate".data.map Char.toLower⟩ ∧
      unknownCmdLines ⟨"Frobnicate".data.map Char.toLower⟩ =
        ["Unknown cmd:", (⟨"Frobnicate".data.map Char.toLower⟩ : String)] :=
  c6_unknown_command "oled_status.py" "Frobnicate" [] (by decide)

/-- C7: main returns exit code 0 on every completing invocation: the usage
path with no command, every dispatched command, the unknown-command
fallback, and in particular when the handler body raises, since the
exception is caught and main still falls through to return 0. -/
theorem c7_exit_zero (argv : List String) (files : List GpsFile) :
    mainExit argv files = 0 := by
  rcases argv with _ | ⟨a, rest⟩
  · rfl
  · rcases rest with _ | ⟨b, rest2⟩
    · rfl
    · show exitOf (handlerOutcome (dispatch (a :: b :: rest2)) files) = 0
      cases handlerOutcome (dispatch (a :: b :: rest2)) files <;> rfl

lemma retryLoopGo_spec (fixFound : Nat → Bool) :
    ∀ n k,
      (retryLoopGo fixFound k n).1 ≤ n ∧
        ((retryLoopGo fixFound k n).2.2 = true →
          1 ≤ (retryLoopGo fixFound k n).1 ∧
            fixFound (k + (retryLoopGo fixFound k n).1 - 1) = true ∧
            (∀ j, j < (retryLoopGo fixFound k n).1 - 1 → fixFound (k + j) = false) ∧
            (retryLoopGo fixFound k n).2.1 = (retryLoopGo fixFound k n).1 - 1) ∧
        ((retryLoopGo fixFound k n).2.2 = false →
          (retryLoopGo fixFound k n).1 = n ∧
            (∀ j, j < n → fixFound (k + j) = false) ∧
            (retryLoopGo fixFound k n).2.1 = n - 1) := by
  intro n
  induction n with
  | zero =>
    intro k
    refine ⟨Nat.le_refl 0, ?_, ?_⟩
    · intro h; exact Bool.noConfusion h
    · intro _; exact ⟨rfl, fun j hj => absurd hj (Nat.not_lt_zero j), rfl⟩
  | succ n ih =>
    intro k
    by_cases hk : fixFound k = true
    · have hgo : retryLoopGo fixFound k (n + 1) = (1, 0, true) := by
        unfold retryLoopGo
        rw [hk]
        simp
      rw [hgo]
      dsimp only
      refine ⟨by omega, ?_, ?_⟩
      · intro _
        refine ⟨Nat.le_refl 1, by simpa using hk, ?_, rfl⟩
        intro j hj
        exact absurd hj (by omega)
      · intro h; exact Bool.noConfusion h
    · have hkf : fixFound k = false := by
        cases hfk : fixFound k
        · rfl
        · exact absurd hfk hk
      cases n with
      | zero =>
        have hgo : retryLoopGo fixFound k (0 + 1) = (1, 0, false) := by
          unfold retryLoopGo
          rw [hkf]
          simp
        rw [hgo]
        dsimp only
        refine ⟨Nat.le_refl 1, ?_, ?_⟩
        · intro h; exact Bool.noConfusion h
        · intro _
          refine ⟨rfl, ?_, rfl⟩
          intro j hj
          have hj0 : j = 0 := Nat.lt_one_iff.mp hj
          subst hj0
          simpa using hkf
      | succ m =>
        rcases hR : retryLoopGo fixFound (k + 1) (m + 1) with ⟨a, s, fnd⟩
        have hgo : retryLoopGo fixFound k (m + 1 + 1) = (a + 1, s + 1, fnd) := by
          unfold retryLoopGo
          rw [hkf]
          simp [hR]
        have hr := ih (k + 1)
        rw [hR] at hr
        dsimp only at hr
        rw [hgo]
        dsimp only
        refine ⟨?_, ?_, ?_⟩
        · have := hr.1
          omega
        · intro ht
          obtain ⟨h1, h2, h3, h4⟩ := hr.2.1 ht
          refine ⟨by omega, ?_, ?_, by omega⟩
          · have heq : k + (a + 1) - 1 = k + 1 + a - 1 := by omega
            rw [heq]
            exact h2
          · intro j hj
            cases j with
            | zero => simpa using hkf
            | succ i =>
              have hi : i < a - 1 := by omega
              have heq : k + (i + 1) = k + 1 + i := by omega
              rw [heq]
              exact h3 i hi
        · intro hf
          obtain ⟨h1, h2, h3⟩ := hr.2.2 hf
          refine ⟨by omega, ?_, by omega⟩
          intro j hj
          cases j with
          | zero => simpa using hkf
          | succ i =>
            have hi : i < m + 1 := by omega
            have heq : k + (i + 1) = k + 1 + i := by omega
            rw [heq]
            exact h2 i hi

/-- C8: the acquisition retry loop makes at most n attempts, terminates at
the first attempt that finds a fix (every earlier attempt failed and the
successful attempt is the last), sleeps the inter-attempt delay exactly once
after each unsuccessful attempt that another attempt follows and never after
the successful one, and with no fix makes exactly n attempts; the configured
defaults are 15 attempts and 3 seconds. -/
theorem c8_retry_loop_bounds (n : Nat) (fixFound : Nat → Bool) :
    (retryLoop n fixFound).1 ≤ n ∧
      ((retryLoop n fixFound).2.2 = true →
        fixFound ((retryLoop n fixFound).1 - 1) = true ∧
          (∀ j, j < (retryLoop n fixFound).1 - 1 → fixFound j = false) ∧
          (retryLoop n fixFound).2.1 = (retryLoop n fixFound).1 - 1) ∧
      ((retryLoop n fixFound).2.2 = false →
        (retryLoop n fixFound).1 = n ∧
          (∀ j, j < n → fixFound j = false) ∧
          (retryLoop n fixFound).2.1 = n - 1) ∧
      MAX_ATTEMPTS = 15 ∧ RETRY_DELAY_S = 3 := by
  simp only [retryLoop]
  have h := retryLoopGo_spec fixFound n 0
  refine ⟨h.1, ?_, ?_, rfl, rfl⟩
  · intro ht
    obtain ⟨h1, h2, h3, h4⟩ := h.2.1 ht
    refine ⟨by simpa using h2, ?_, h4⟩
    intro j hj
    simpa using h3 j hj
  · intro hf
    obtain ⟨h1, h2, h3⟩ := h.2.2 hf
    refine ⟨h1, ?_, h3⟩
    intro j hj
    simpa using h2 j hj

/-- C8 witness: the retry-loop theorem at the default budget of 15 attempts
with the fix first found on attempt 3. -/
theorem c8_witness :
    (retryLoop 15 (fun k => k == 3)).1 ≤ 15 ∧
      (fun k => k == 3) ((retryLoop 15 (fun k => k == 3)).1 - 1) = true ∧
      (retryLoop 15 (fun k => k == 3)).2.1 = (retryLoop 15 (fun k => k == 3)).1 - 1 := by
  have h := c8_retry_loop_bounds 15 (fun k => k == 3)
  have ht := h.2.1 (by decide)
  exact ⟨h.1, ht.1, ht.2.2⟩

lemma distanceOfRow_ne_noData (row : Row) :
    distanceOfRow row ≠ Except.ok DistanceRender.noData := by
  unfold distanceOfRow
  split
  · split <;> simp
  · simp

lemma briefOfRow_ne_noLog (row : Row) :
    briefOfRow row ≠ Except.ok BriefRender.noLog := by
  unfold briefOfRow
  split
  · simp
  · split
    · split <;> simp
    · simp

/-- C9: when the fix-filtered lookup completes with no match, the GPS display
handlers fall back to the newest scanned row regardless of its status; their
no-data messages are selected exactly when no row at all was scanned. -/
theorem c9_fallback_any_status (files : List GpsFile)
    (h : latestRow (some "fix") files = Except.ok none) :
    selectRow files = Except.ok ((iterRecentGpsRows files).head?) ∧
      (showDistanceRender files = Except.ok DistanceRender.noData ↔
        iterRecentGpsRows files = []) ∧
      (showBriefRender files = Except.ok BriefRender.noLog ↔
        iterRecentGpsRows files = []) := by
  have hsel : selectRow files = Except.ok ((iterRecentGpsRows files).head?) := by
    unfold selectRow
    rw [h]
    rfl
  refine ⟨hsel, ?_, ?_⟩
  · constructor
    · intro hd
      by_contra hne
      obtain ⟨r, rs, hcons⟩ : ∃ r rs, iterRecentGpsRows files = r :: rs := by
        cases hit : iterRecentGpsRows files with
        | nil => exact absurd hit hne
        | cons r rs => exact ⟨r, rs, rfl⟩
      have hred : showDistanceRender files = distanceOfRow r := by
        unfold showDistanceRender
        rw [hsel, hcons]
        rfl
      rw [hred] at hd
      exact distanceOfRow_ne_noData r hd
    · intro hnil
      unfold showDistanceRender
      rw [hsel, hnil]
      rfl
  · constructor
    · intro hd
      by_contra hne
      obtain ⟨r, rs, hcons⟩ : ∃ r rs, iterRecentGpsRows files = r :: rs := by
        cases hit : iterRecentGpsRows files with
        | nil => exact absurd hit hne
        | cons r rs => exact ⟨r, rs, rfl⟩
      have hred : showBriefRender files = briefOfRow r := by
        unfold showBriefRender
        rw [hsel, hcons]
        rfl
      rw [hred] at hd
      exact briefOfRow_ne_noLog r hd
    · intro hnil
      unfold showBriefRender
      rw [hsel, hnil]
      rfl

/-- A searching-status row with no fix row anywhere, for the C9 witness. -/
def searchRow : Row := [("status", some "searching")]

/-- The single log file of the C9 witness. -/
def searchFile : GpsFile := ⟨0, some [searchRow]⟩

/-- C9 witness: the fallback theorem at a concrete log set holding only a
searching row. -/
theorem c9_witness :
    latestRow (some "fix") [searchFile] = Except.ok none ∧
      selectRow [searchFile] = Except.ok ((iterRecentGpsRows [searchFile]).head?) :=
  ⟨rfl, (c9_fallback_any_status [searchFile] rfl).1⟩

lemma selectRow_status_isSome (files : List GpsFile) (row : Row)
    (h : selectRow files = Except.ok (some row)) :
    (dictGet row "status" (some "?")).isSome := by
  unfold selectRow at h
  cases hfix : latestRow (some "fix") files with
  | error e => rw [hfix] at h; exact absurd h (by simp)
  | ok o =>
    rw [hfix] at h
    cases o with
    | some r =>
      have hrr : r = row := by simpa using h
      subst hrr
      have hs : (dictGet r "status" (some "")).isSome :=
        findStatusRow_ok_some "fix" (iterRecentGpsRows files) r
          (by simpa [latestRow] using hfix)
      exact dictGet_isSome_default r "status" "" "?" hs
    | none =>
      have hall := findStatusRow_ok_none "fix" (iterRecentGpsRows files)
        (by simpa [latestRow] using hfix)
      have hhead : (iterRecentGpsRows files).head? = some row := by
        simpa [latestRow] using h
      have hmem : row ∈ iterRecentGpsRows files :=
        List.mem_of_mem_head? (by simp [hhead])
      exact dictGet_isSome_default row "status" "" "?" (hall row hmem).1

/-- C10: _km_distance returns None, raising nothing, whenever any of its
four arguments is None; and for every row _show_distance actually selects,
the Distance-unavailable branch is rendered exactly when that _km_distance
call returned None (the status value of a selected row is always a string,
so the branch cannot raise). -/
theorem c10_distance_unavailable :
    (∀ a b c d : Option ℝ, a = none ∨ b = none ∨ c = none ∨ d = none →
        kmDistance a b c d = none) ∧
      ∀ files row, selectRow files = Except.ok (some row) →
        ((∃ su ts, distanceOfRow row = Except.ok (DistanceRender.entryNoKm su ts)) ↔
          kmDistance ((safeFloat (dictGet row "lat" none)).map (fun q => (q : ℝ)))
            ((safeFloat (dictGet row "lon" none)).map (fun q => (q : ℝ)))
            (some ((REF_LAT : ℚ) : ℝ)) (some ((REF_LON : ℚ) : ℝ)) = none) := by
  constructor
  · intro a b c d h
    cases a <;> cases b <;> cases c <;> cases d <;> simp_all [kmDistance]
  · intro files row hsel
    have hst := selectRow_status_isSome files row hsel
    obtain ⟨v, hv⟩ := Option.isSome_iff_exists.mp hst
    unfold distanceOfRow
    cases hkm : kmDistance ((safeFloat (dictGet row "lat" none)).map (fun q => (q : ℝ)))
        ((safeFloat (dictGet row "lon" none)).map (fun q => (q : ℝ)))
        (some ((REF_LAT : ℚ) : ℝ)) (some ((REF_LON : ℚ) : ℝ)) with
    | none =>
      rw [hv]
      simp [pyUpper]
    | some km =>
      simp

/-- The fix row of the C10 witness. -/
def fixRowW : Row := [("status", some "fix"), ("lat", some "1.0"), ("lon", some "2.0")]

/-- The single log file of the C10 witness. -/
def fixFileW : GpsFile := ⟨0, some [fixRowW]⟩

/-- C10 witness: _km_distance with an absent first argument, and the caller
branch equivalence at a concrete selected row. -/
theorem c10_witness :
    kmDistance none (some 1) (some 2) (some 3) = none ∧
      ((∃ su ts, distanceOfRow fixRowW = Except.ok (DistanceRender.entryNoKm su ts)) ↔
        kmDistance ((safeFloat (dictGet fixRowW "lat" none)).map (fun q => (q : ℝ)))
          ((safeFloat (dictGet fixRowW "lon" none)).map (fun q => (q : ℝ)))
          (some ((REF_LAT : ℚ) : ℝ)) (some ((REF_LON : ℚ) : ℝ)) = none) :=
  ⟨c10_distance_unavailable.1 none (some 1) (some 2) (some 3) (Or.inl rfl),
    c10_distance_unavailable.2 [fixFileW] fixRowW rfl⟩
